import Mathlib

/-!
# Guarded L2 → L1 withdrawal (`opstack.WithdrawFromL2`)

A shallow embedding of `core/scripts/ccip/rebalancer/opstack/withdraw.go`.

The Go function talks to the outside world through seven kinds of calls (two contract
bindings, two queries, two submissions and the wait for a transaction). Each of them is
a field of `World`; a field receives the calls made so far (with their results), so an
answer may depend on everything that happened before it.
`WithdrawFromL2` returns how the run ended together with the list of calls it
made, in order, each with its arguments and its result.

Go values:
* `*big.Int` amounts are `Int` (arbitrary precision, signed, never nil);
  `x.Cmp(y) < 0` is `x < y` and `x.String()` is the decimal text `toString x`;
* `common.Address` is a `Nat`, `common.HexToAddress("0x0")` is `0`;
* `[]byte` is a `List Nat`, `[]byte{}` is `[]`;
* `uint64` chain ids are `Nat`, the conversion `int64(l2ChainID)` wraps at `2^63`;
* a `(value, err)` result pair is an `Except GoError value`;
* a `panic` ends the run with a `PanicValue`.

The packages `helpers`, `multienv`, `erc20` and `optimism_l2_bridge_adapter` are imported
by the file and are not part of it. The contract calls are fields of `World`; the two
helpers `PanicErr` and `ConfirmTXMined` and the type `Env` are modelled from the
specification.
-/

namespace Opstack

/-- The Go type common.Address. -/
abbrev Address := Nat

/-- The text of a Go error value. -/
abbrev GoError := String

/-- A handle on an ethclient.Client. -/
abbrev Client := Nat

/-- A handle on a bound erc20.ERC20 contract. -/
abbrev ERC20 := Nat

/-- A handle on a bound OptimismL2BridgeAdapter contract. -/
abbrev OptimismL2BridgeAdapter := Nat

/-- A handle on a submitted types.Transaction. -/
abbrev Transaction := Nat

/-- A handle on a types.Receipt. -/
abbrev Receipt := Nat

/-- The Go type bind.TransactOpts: the signing account; From is its address. -/
structure TransactOpts where
  From : Address
  Signer : Nat
  deriving DecidableEq, Repr

/-- Modelled from the spec: the type multienv.Env is not under src/. It supplies, per
chain identifier, a read/query client and a transaction-signing client. The Go code
indexes both with `[l2ChainID]` and gets a pointer, which is nil for a chain that is
not configured. -/
structure Env where
  Clients : Nat → Option Client
  Transactors : Nat → Option TransactOpts

/-- Modelled from the spec: the failure of the Transaction Confirmer, raised when the
client reports an execution revert or when the wait is cancelled. -/
inductive ConfirmationError where
  | reverted
  | cancelled
  deriving DecidableEq, Repr

deriving instance DecidableEq for Except

/-- One external call of a run: its arguments, then its result. -/
inductive Event where
  | NewERC20 (address : Address) (backend : Option Client) (res : Except GoError ERC20)
  | BalanceOf (token : ERC20) (account : Address) (res : Except GoError Int)
  | NewOptimismL2BridgeAdapter (address : Address) (backend : Option Client)
      (res : Except GoError OptimismL2BridgeAdapter)
  | Approve (token : ERC20) (opts : TransactOpts) (spender : Address) (amount : Int)
      (res : Except GoError Transaction)
  | ConfirmTXMined (client : Option Client) (tx : Transaction) (chainID : Int)
      (txInfo : List String) (res : Except ConfirmationError Receipt)
  | Allowance (token : ERC20) (owner spender : Address) (res : Except GoError Int)
  | SendERC20 (adapter : OptimismL2BridgeAdapter) (opts : TransactOpts)
      (localToken remoteToken recipient : Address) (amount : Int)
      (bridgeSpecificData : List Nat) (res : Except GoError Transaction)
  deriving DecidableEq

/-- The value a run panics with. -/
inductive PanicValue where
  /-- The value of `helpers.PanicErr(err)` with a non-nil err. -/
  | err (e : GoError)
  /-- The value of `panic(fmt.Sprintf(...))`. -/
  | msg (s : String)
  /-- The value raised inside helpers.ConfirmTXMined. -/
  | confirmation (e : ConfirmationError)
  /-- The runtime error of `env.Transactors[l2ChainID].From` on a nil pointer. -/
  | nilPointerDereference
  deriving DecidableEq, Repr

/-- How a run of WithdrawFromL2 ends: it returns, or it panics. -/
inductive Outcome where
  | returned
  | panicked (v : PanicValue)
  deriving DecidableEq, Repr

/-- The outside world: what each external call answers, given the calls made so far. -/
structure World where
  NewERC20 : List Event → Address → Option Client → Except GoError ERC20
  BalanceOf : List Event → ERC20 → Address → Except GoError Int
  NewOptimismL2BridgeAdapter :
    List Event → Address → Option Client → Except GoError OptimismL2BridgeAdapter
  Approve : List Event → ERC20 → TransactOpts → Address → Int → Except GoError Transaction
  Confirm :
    List Event → Option Client → Transaction → Int → List String →
      Except ConfirmationError Receipt
  Allowance : List Event → ERC20 → Address → Address → Except GoError Int
  SendERC20 :
    List Event → OptimismL2BridgeAdapter → TransactOpts → Address → Address → Address →
      Int → List Nat → Except GoError Transaction

/-- Modelled from the spec: helpers.PanicErr is not under src/. The source uses an
unrecoverable-abort idiom on every error: a non-nil error ends the run with that error
as the panic value, a nil error lets the run go on with the value. -/
def PanicErr {α : Type} (r : Except GoError α) : Except PanicValue α :=
  match r with
  | .ok v => .ok v
  | .error e => .error (.err e)

/-- Modelled from the spec: helpers.ConfirmTXMined is not under src/. The Transaction
Confirmer blocks until the transaction is included, and gives the receipt, or fails with
a ConfirmationError; as every error of the source, the failure ends the run. The second
component is the record of the call. -/
def ConfirmTXMined (w : World) (hist : List Event) (client : Option Client)
    (tx : Transaction) (chainID : Int) (txInfo : List String) :
    Except PanicValue Receipt × Event :=
  let r := w.Confirm hist client tx chainID txInfo
  (match r with
    | .ok receipt => .ok receipt
    | .error e => .error (.confirmation e),
   Event.ConfirmTXMined client tx chainID txInfo r)

/-- The Go conversion `int64(x)` of a uint64. -/
def int64 (x : Nat) : Int :=
  if x % 2 ^ 64 < 2 ^ 63 then ((x % 2 ^ 64 : Nat) : Int) else ((x % 2 ^ 64 : Nat) : Int) - 2 ^ 64

/-- The message of the panic at the balance check (withdraw.go, lines 31-32). -/
def notEnoughBalance (balance amount : Int) : String :=
  "not enough balance to withdraw, get more tokens or specify less amount, bal: " ++
    toString balance ++ ", want: " ++ toString amount

/-- The message of the panic at the allowance check (withdraw.go, line 47). -/
def approvalFailed (allowance amount : Int) : String :=
  "approval failed, allowance: " ++ toString allowance ++ ", expected amount: " ++
    toString amount

/-- The function WithdrawFromL2 of withdraw.go: the way the run ends and the calls it made. -/
def WithdrawFromL2 (w : World) (env : Env) (l2ChainID : Nat)
    (l2BridgeAdapterAddress : Address) (amount : Int)
    (l1ToAddress l2TokenAddress : Address) : Outcome × List Event :=
  let r1 := w.NewERC20 [] l2TokenAddress (env.Clients l2ChainID)
  let t1 := [Event.NewERC20 l2TokenAddress (env.Clients l2ChainID) r1]
  match PanicErr r1 with
  | .error p => (.panicked p, t1)
  | .ok token =>
  -- check if we have enough balance
  match env.Transactors l2ChainID with
  | none => (.panicked .nilPointerDereference, t1)
  | some opts =>
  let r2 := w.BalanceOf t1 token opts.From
  let t2 := t1 ++ [Event.BalanceOf token opts.From r2]
  match PanicErr r2 with
  | .error p => (.panicked p, t2)
  | .ok balance =>
  if balance < amount then
    (.panicked (.msg (notEnoughBalance balance amount)), t2)
  else
  let r3 := w.NewOptimismL2BridgeAdapter t2 l2BridgeAdapterAddress (env.Clients l2ChainID)
  let t3 := t2 ++
    [Event.NewOptimismL2BridgeAdapter l2BridgeAdapterAddress (env.Clients l2ChainID) r3]
  match PanicErr r3 with
  | .error p => (.panicked p, t3)
  | .ok l2Adapter =>
  -- Approve the adapter to receive the tokens
  let r4 := w.Approve t3 token opts l2BridgeAdapterAddress amount
  let t4 := t3 ++ [Event.Approve token opts l2BridgeAdapterAddress amount r4]
  match PanicErr r4 with
  | .error p => (.panicked p, t4)
  | .ok tx =>
  let c5 := ConfirmTXMined w t4 (env.Clients l2ChainID) tx (int64 l2ChainID) []
  let t5 := t4 ++ [c5.2]
  match c5.1 with
  | .error p => (.panicked p, t5)
  | .ok _ =>
  -- check the approval
  let r6 := w.Allowance t5 token opts.From l2BridgeAdapterAddress
  let t6 := t5 ++ [Event.Allowance token opts.From l2BridgeAdapterAddress r6]
  match PanicErr r6 with
  | .error p => (.panicked p, t6)
  | .ok allowance =>
  if allowance < amount then
    (.panicked (.msg (approvalFailed allowance amount)), t6)
  else
  -- at this point we should be able to withdraw the tokens to L1
  let r7 := w.SendERC20 t6 l2Adapter opts l2TokenAddress 0 l1ToAddress amount []
  let t7 := t6 ++ [Event.SendERC20 l2Adapter opts l2TokenAddress 0 l1ToAddress amount [] r7]
  match PanicErr r7 with
  | .error p => (.panicked p, t7)
  | .ok tx =>
  let c8 := ConfirmTXMined w t7 (env.Clients l2ChainID) tx (int64 l2ChainID)
    ["WithdrawFromL2"]
  let t8 := t7 ++ [c8.2]
  match c8.1 with
  | .error p => (.panicked p, t8)
  | .ok _ => (.returned, t8)

/-- A call that submits the approve transaction. -/
def Event.isApprove : Event → Bool
  | .Approve _ _ _ _ _ => true
  | _ => false

/-- A call that submits the withdrawal transaction. -/
def Event.isSendERC20 : Event → Bool
  | .SendERC20 _ _ _ _ _ _ _ _ => true
  | _ => false

/-- A balance query. -/
def Event.isBalanceOf : Event → Bool
  | .BalanceOf _ _ _ => true
  | _ => false

/-- An allowance query. -/
def Event.isAllowance : Event → Bool
  | .Allowance _ _ _ _ => true
  | _ => false

/-- The calls of a run that submit a transaction (approve or withdrawal), in order. -/
def submitted (tr : List Event) : List Event :=
  tr.filter (fun e => e.isApprove || e.isSendERC20)

/-- The transactions a run got back from its submissions, in order. -/
def submittedTxs : List Event → List Transaction
  | [] => []
  | .Approve _ _ _ _ (.ok tx) :: tr => tx :: submittedTxs tr
  | .SendERC20 _ _ _ _ _ _ _ (.ok tx) :: tr => tx :: submittedTxs tr
  | _ :: tr => submittedTxs tr

/-- The transactions a run handed to the confirmer, in order. -/
def confirmedTxs : List Event → List Transaction
  | [] => []
  | .ConfirmTXMined _ tx _ _ _ :: tr => tx :: confirmedTxs tr
  | _ :: tr => confirmedTxs tr

/-- A world for examples: fixed handles, a balance, an allowance, and the two answers of
the confirmer (the first for the approve transaction, the second for the withdrawal). -/
def scriptedWorld (balance allowance : Int)
    (approveConfirm withdrawConfirm : Except ConfirmationError Receipt) : World where
  NewERC20 := fun _ _ _ => .ok 1
  BalanceOf := fun _ _ _ => .ok balance
  NewOptimismL2BridgeAdapter := fun _ _ _ => .ok 2
  Approve := fun _ _ _ _ _ => .ok 3
  Confirm := fun _ _ _ _ txInfo => if txInfo = [] then approveConfirm else withdrawConfirm
  Allowance := fun _ _ _ _ => .ok allowance
  SendERC20 := fun _ _ _ _ _ _ _ _ => .ok 5

/-- An environment for examples: chain 10 is configured, with account 9. -/
def scriptedEnv : Env where
  Clients := fun c => if c = 10 then some 7 else none
  Transactors := fun c => if c = 10 then some ⟨9, 1⟩ else none


/-- The eight calls of a run in which every call succeeds, with the answers received. -/
def completedCalls (env : Env) (l2ChainID : Nat) (l2BridgeAdapterAddress : Address)
    (amount : Int) (l1ToAddress l2TokenAddress : Address) (token : ERC20)
    (opts : TransactOpts) (balance : Int) (adapter : OptimismL2BridgeAdapter)
    (tx : Transaction) (receipt : Receipt) (allowance : Int) (tx2 : Transaction)
    (receipt2 : Receipt) : List Event :=
  [Event.NewERC20 l2TokenAddress (env.Clients l2ChainID) (.ok token),
   Event.BalanceOf token opts.From (.ok balance),
   Event.NewOptimismL2BridgeAdapter l2BridgeAdapterAddress (env.Clients l2ChainID)
     (.ok adapter),
   Event.Approve token opts l2BridgeAdapterAddress amount (.ok tx),
   Event.ConfirmTXMined (env.Clients l2ChainID) tx (int64 l2ChainID) [] (.ok receipt),
   Event.Allowance token opts.From l2BridgeAdapterAddress (.ok allowance),
   Event.SendERC20 adapter opts l2TokenAddress 0 l1ToAddress amount [] (.ok tx2),
   Event.ConfirmTXMined (env.Clients l2ChainID) tx2 (int64 l2ChainID) ["WithdrawFromL2"]
     (.ok receipt2)]

/-- The answers of the world along a run in which every call succeeds: each call is
answered with a value, at the history the run has reached, and both queried values are
at least the amount. -/
def Favourable (w : World) (env : Env) (l2ChainID : Nat) (l2BridgeAdapterAddress : Address)
    (amount : Int) (l1ToAddress l2TokenAddress : Address) (token : ERC20)
    (opts : TransactOpts) (balance : Int) (adapter : OptimismL2BridgeAdapter)
    (tx : Transaction) (receipt : Receipt) (allowance : Int) (tx2 : Transaction)
    (receipt2 : Receipt) : Prop :=
  let calls := completedCalls env l2ChainID l2BridgeAdapterAddress amount l1ToAddress
    l2TokenAddress token opts balance adapter tx receipt allowance tx2 receipt2
  w.NewERC20 [] l2TokenAddress (env.Clients l2ChainID) = .ok token ∧
  env.Transactors l2ChainID = some opts ∧
  w.BalanceOf (calls.take 1) token opts.From = .ok balance ∧
  amount ≤ balance ∧
  w.NewOptimismL2BridgeAdapter (calls.take 2) l2BridgeAdapterAddress
    (env.Clients l2ChainID) = .ok adapter ∧
  w.Approve (calls.take 3) token opts l2BridgeAdapterAddress amount = .ok tx ∧
  w.Confirm (calls.take 4) (env.Clients l2ChainID) tx (int64 l2ChainID) [] = .ok receipt ∧
  w.Allowance (calls.take 5) token opts.From l2BridgeAdapterAddress = .ok allowance ∧
  amount ≤ allowance ∧
  w.SendERC20 (calls.take 6) adapter opts l2TokenAddress 0 l1ToAddress amount [] =
    .ok tx2 ∧
  w.Confirm (calls.take 7) (env.Clients l2ChainID) tx2 (int64 l2ChainID)
    ["WithdrawFromL2"] = .ok receipt2

/-- The number a list of decimal digit characters stands for. -/
def digitsValue (ds : List Char) : Nat :=
  ds.foldl (fun acc c => acc * 10 + (c.toNat - 48)) 0

/-- The twelve ways a run can go, each with its outcome and its calls. The parameters are
the arguments of WithdrawFromL2; every constructor names the answers the run received. -/
inductive RunShape (env : Env) (l2ChainID : Nat) (l2BridgeAdapterAddress : Address)
    (amount : Int) (l1ToAddress l2TokenAddress : Address) : Outcome × List Event → Prop where
  | newERC20Failed (e : GoError) :
      RunShape env l2ChainID l2BridgeAdapterAddress amount l1ToAddress l2TokenAddress
        (.panicked (.err e),
          [Event.NewERC20 l2TokenAddress (env.Clients l2ChainID) (.error e)])
  | noTransactor (token : ERC20) (hopts : env.Transactors l2ChainID = none) :
      RunShape env l2ChainID l2BridgeAdapterAddress amount l1ToAddress l2TokenAddress
        (.panicked .nilPointerDereference,
          [Event.NewERC20 l2TokenAddress (env.Clients l2ChainID) (.ok token)])
  | balanceOfFailed (token : ERC20) (opts : TransactOpts)
      (hopts : env.Transactors l2ChainID = some opts) (e : GoError) :
      RunShape env l2ChainID l2BridgeAdapterAddress amount l1ToAddress l2TokenAddress
        (.panicked (.err e),
          [Event.NewERC20 l2TokenAddress (env.Clients l2ChainID) (.ok token),
           Event.BalanceOf token opts.From (.error e)])
  | insufficientBalance (token : ERC20) (opts : TransactOpts)
      (hopts : env.Transactors l2ChainID = some opts) (balance : Int)
      (hbal : balance < amount) :
      RunShape env l2ChainID l2BridgeAdapterAddress amount l1ToAddress l2TokenAddress
        (.panicked (.msg (notEnoughBalance balance amount)),
          [Event.NewERC20 l2TokenAddress (env.Clients l2ChainID) (.ok token),
           Event.BalanceOf token opts.From (.ok balance)])
  | newAdapterFailed (token : ERC20) (opts : TransactOpts)
      (hopts : env.Transactors l2ChainID = some opts) (balance : Int)
      (hbal : amount ≤ balance) (e : GoError) :
      RunShape env l2ChainID l2BridgeAdapterAddress amount l1ToAddress l2TokenAddress
        (.panicked (.err e),
          [Event.NewERC20 l2TokenAddress (env.Clients l2ChainID) (.ok token),
           Event.BalanceOf token opts.From (.ok balance),
           Event.NewOptimismL2BridgeAdapter l2BridgeAdapterAddress (env.Clients l2ChainID)
             (.error e)])
  | approveFailed (token : ERC20) (opts : TransactOpts)
      (hopts : env.Transactors l2ChainID = some opts) (balance : Int)
      (hbal : amount ≤ balance) (l2Adapter : OptimismL2BridgeAdapter) (e : GoError) :
      RunShape env l2ChainID l2BridgeAdapterAddress amount l1ToAddress l2TokenAddress
        (.panicked (.err e),
          [Event.NewERC20 l2TokenAddress (env.Clients l2ChainID) (.ok token),
           Event.BalanceOf token opts.From (.ok balance),
           Event.NewOptimismL2BridgeAdapter l2BridgeAdapterAddress (env.Clients l2ChainID)
             (.ok l2Adapter),
           Event.Approve token opts l2BridgeAdapterAddress amount (.error e)])
  | approveNotConfirmed (token : ERC20) (opts : TransactOpts)
      (hopts : env.Transactors l2ChainID = some opts) (balance : Int)
      (hbal : amount ≤ balance) (l2Adapter : OptimismL2BridgeAdapter) (tx : Transaction)
      (e : ConfirmationError) :
      RunShape env l2ChainID l2BridgeAdapterAddress amount l1ToAddress l2TokenAddress
        (.panicked (.confirmation e),
          [Event.NewERC20 l2TokenAddress (env.Clients l2ChainID) (.ok token),
           Event.BalanceOf token opts.From (.ok balance),
           Event.NewOptimismL2BridgeAdapter l2BridgeAdapterAddress (env.Clients l2ChainID)
             (.ok l2Adapter),
           Event.Approve token opts l2BridgeAdapterAddress amount (.ok tx),
           Event.ConfirmTXMined (env.Clients l2ChainID) tx (int64 l2ChainID) [] (.error e)])
  | allowanceFailed (token : ERC20) (opts : TransactOpts)
      (hopts : env.Transactors l2ChainID = some opts) (balance : Int)
      (hbal : amount ≤ balance) (l2Adapter : OptimismL2BridgeAdapter) (tx : Transaction)
      (receipt : Receipt) (e : GoError) :
      RunShape env l2ChainID l2BridgeAdapterAddress amount l1ToAddress l2TokenAddress
        (.panicked (.err e),
          [Event.NewERC20 l2TokenAddress (env.Clients l2ChainID) (.ok token),
           Event.BalanceOf token opts.From (.ok balance),
           Event.NewOptimismL2BridgeAdapter l2BridgeAdapterAddress (env.Clients l2ChainID)
             (.ok l2Adapter),
           Event.Approve token opts l2BridgeAdapterAddress amount (.ok tx),
           Event.ConfirmTXMined (env.Clients l2ChainID) tx (int64 l2ChainID) [] (.ok receipt),
           Event.Allowance token opts.From l2BridgeAdapterAddress (.error e)])
  | approvalMismatch (token : ERC20) (opts : TransactOpts)
      (hopts : env.Transactors l2ChainID = some opts) (balance : Int)
      (hbal : amount ≤ balance) (l2Adapter : OptimismL2BridgeAdapter) (tx : Transaction)
      (receipt : Receipt) (allowance : Int) (hallow : allowance < amount) :
      RunShape env l2ChainID l2BridgeAdapterAddress amount l1ToAddress l2TokenAddress
        (.panicked (.msg (approvalFailed allowance amount)),
          [Event.NewERC20 l2TokenAddress (env.Clients l2ChainID) (.ok token),
           Event.BalanceOf token opts.From (.ok balance),
           Event.NewOptimismL2BridgeAdapter l2BridgeAdapterAddress (env.Clients l2ChainID)
             (.ok l2Adapter),
           Event.Approve token opts l2BridgeAdapterAddress amount (.ok tx),
           Event.ConfirmTXMined (env.Clients l2ChainID) tx (int64 l2ChainID) [] (.ok receipt),
           Event.Allowance token opts.From l2BridgeAdapterAddress (.ok allowance)])
  | sendFailed (token : ERC20) (opts : TransactOpts)
      (hopts : env.Transactors l2ChainID = some opts) (balance : Int)
      (hbal : amount ≤ balance) (l2Adapter : OptimismL2BridgeAdapter) (tx : Transaction)
      (receipt : Receipt) (allowance : Int) (hallow : amount ≤ allowance) (e : GoError) :
      RunShape env l2ChainID l2BridgeAdapterAddress amount l1ToAddress l2TokenAddress
        (.panicked (.err e),
          [Event.NewERC20 l2TokenAddress (env.Clients l2ChainID) (.ok token),
           Event.BalanceOf token opts.From (.ok balance),
           Event.NewOptimismL2BridgeAdapter l2BridgeAdapterAddress (env.Clients l2ChainID)
             (.ok l2Adapter),
           Event.Approve token opts l2BridgeAdapterAddress amount (.ok tx),
           Event.ConfirmTXMined (env.Clients l2ChainID) tx (int64 l2ChainID) [] (.ok receipt),
           Event.Allowance token opts.From l2BridgeAdapterAddress (.ok allowance),
           Event.SendERC20 l2Adapter opts l2TokenAddress 0 l1ToAddress amount [] (.error e)])
  | withdrawNotConfirmed (token : ERC20) (opts : TransactOpts)
      (hopts : env.Transactors l2ChainID = some opts) (balance : Int)
      (hbal : amount ≤ balance) (l2Adapter : OptimismL2BridgeAdapter) (tx : Transaction)
      (receipt : Receipt) (allowance : Int) (hallow : amount ≤ allowance)
      (tx2 : Transaction) (e : ConfirmationError) :
      RunShape env l2ChainID l2BridgeAdapterAddress amount l1ToAddress l2TokenAddress
        (.panicked (.confirmation e),
          [Event.NewERC20 l2TokenAddress (env.Clients l2ChainID) (.ok token),
           Event.BalanceOf token opts.From (.ok balance),
           Event.NewOptimismL2BridgeAdapter l2BridgeAdapterAddress (env.Clients l2ChainID)
             (.ok l2Adapter),
           Event.Approve token opts l2BridgeAdapterAddress amount (.ok tx),
           Event.ConfirmTXMined (env.Clients l2ChainID) tx (int64 l2ChainID) [] (.ok receipt),
           Event.Allowance token opts.From l2BridgeAdapterAddress (.ok allowance),
           Event.SendERC20 l2Adapter opts l2TokenAddress 0 l1ToAddress amount [] (.ok tx2),
           Event.ConfirmTXMined (env.Clients l2ChainID) tx2 (int64 l2ChainID)
             ["WithdrawFromL2"] (.error e)])
  | completed (token : ERC20) (opts : TransactOpts)
      (hopts : env.Transactors l2ChainID = some opts) (balance : Int)
      (hbal : amount ≤ balance) (l2Adapter : OptimismL2BridgeAdapter) (tx : Transaction)
      (receipt : Receipt) (allowance : Int) (hallow : amount ≤ allowance)
      (tx2 : Transaction) (receipt2 : Receipt) :
      RunShape env l2ChainID l2BridgeAdapterAddress amount l1ToAddress l2TokenAddress
        (.returned,
          [Event.NewERC20 l2TokenAddress (env.Clients l2ChainID) (.ok token),
           Event.BalanceOf token opts.From (.ok balance),
           Event.NewOptimismL2BridgeAdapter l2BridgeAdapterAddress (env.Clients l2ChainID)
             (.ok l2Adapter),
           Event.Approve token opts l2BridgeAdapterAddress amount (.ok tx),
           Event.ConfirmTXMined (env.Clients l2ChainID) tx (int64 l2ChainID) [] (.ok receipt),
           Event.Allowance token opts.From l2BridgeAdapterAddress (.ok allowance),
           Event.SendERC20 l2Adapter opts l2TokenAddress 0 l1ToAddress amount [] (.ok tx2),
           Event.ConfirmTXMined (env.Clients l2ChainID) tx2 (int64 l2ChainID)
             ["WithdrawFromL2"] (.ok receipt2)])

/-! ## The shape of a run -/

/-- Every run of WithdrawFromL2 has one of the twelve shapes of RunShape. -/
theorem WithdrawFromL2_shape (w : World) (env : Env) (l2ChainID : Nat)
    (l2BridgeAdapterAddress : Address) (amount : Int)
    (l1ToAddress l2TokenAddress : Address) :
    RunShape env l2ChainID l2BridgeAdapterAddress amount l1ToAddress l2TokenAddress
      (WithdrawFromL2 w env l2ChainID l2BridgeAdapterAddress amount l1ToAddress
        l2TokenAddress) := by
  unfold WithdrawFromL2
  simp only [List.cons_append, List.nil_append]
  cases h1 : w.NewERC20 [] l2TokenAddress (env.Clients l2ChainID) with
  | error e => exact .newERC20Failed e
  | ok token =>
  simp only [PanicErr]
  cases hopts : env.Transactors l2ChainID with
  | none => exact .noTransactor token hopts
  | some opts =>
  simp only []
  cases h2 : w.BalanceOf [Event.NewERC20 l2TokenAddress (env.Clients l2ChainID) (.ok token)]
      token opts.From with
  | error e => exact .balanceOfFailed token opts hopts e
  | ok balance =>
  simp only []
  by_cases hbal : balance < amount
  · simp only [hbal, if_true]
    exact .insufficientBalance token opts hopts balance hbal
  · simp only [hbal, if_false]
    have hbal2 : amount ≤ balance := not_lt.mp hbal
    generalize h3 : w.NewOptimismL2BridgeAdapter _ _ _ = r3
    cases r3 with
    | error e => exact .newAdapterFailed token opts hopts balance hbal2 e
    | ok l2Adapter =>
    simp only []
    generalize h4 : w.Approve _ _ _ _ _ = r4
    cases r4 with
    | error e => exact .approveFailed token opts hopts balance hbal2 l2Adapter e
    | ok tx =>
    simp only [ConfirmTXMined]
    generalize h5 : w.Confirm _ _ _ _ _ = r5
    cases r5 with
    | error e => exact .approveNotConfirmed token opts hopts balance hbal2 l2Adapter tx e
    | ok receipt =>
    simp only []
    generalize h6 : w.Allowance _ _ _ _ = r6
    cases r6 with
    | error e => exact .allowanceFailed token opts hopts balance hbal2 l2Adapter tx receipt e
    | ok allowance =>
    simp only []
    by_cases hallow : allowance < amount
    · simp only [hallow, if_true]
      exact .approvalMismatch token opts hopts balance hbal2 l2Adapter tx receipt allowance
        hallow
    · simp only [hallow, if_false]
      have hallow2 : amount ≤ allowance := not_lt.mp hallow
      generalize h7 : w.SendERC20 _ _ _ _ _ _ _ _ = r7
      cases r7 with
      | error e =>
        exact .sendFailed token opts hopts balance hbal2 l2Adapter tx receipt allowance
          hallow2 e
      | ok tx2 =>
      simp only []
      generalize h8 : w.Confirm _ _ _ _ _ = r8
      cases r8 with
      | error e =>
        exact .withdrawNotConfirmed token opts hopts balance hbal2 l2Adapter tx receipt
          allowance hallow2 tx2 e
      | ok receipt2 =>
        exact .completed token opts hopts balance hbal2 l2Adapter tx receipt allowance
          hallow2 tx2 receipt2

/-! ## The two panic messages -/

/-- A decimal digit character stands for its digit. -/
theorem digitChar_value (k : Nat) (hk : k < 10) : (Nat.digitChar k).toNat - 48 = k := by
  interval_cases k <;> decide

/-- A decimal digit character is neither a comma nor a minus sign. -/
theorem digitChar_ne (k : Nat) (hk : k < 10) :
    Nat.digitChar k ≠ ',' ∧ Nat.digitChar k ≠ '-' := by
  interval_cases k <;> decide

/-- Reading back the digits written by Nat.toDigitsCore gives the number written. -/
theorem toDigitsCore_value (fuel : Nat) : ∀ (n : Nat) (ds : List Char), n < fuel →
    (Nat.toDigitsCore 10 fuel n ds).foldl (fun acc c => acc * 10 + (c.toNat - 48)) 0 =
      ds.foldl (fun acc c => acc * 10 + (c.toNat - 48)) n := by
  induction fuel with
  | zero => intro n ds h; omega
  | succ fuel ih =>
    intro n ds h
    have hd := digitChar_value (n % 10) (Nat.mod_lt _ (by decide))
    simp only [Nat.toDigitsCore]
    by_cases h0 : n / 10 = 0
    · simp only [h0, if_true, List.foldl_cons, hd]
      congr 1
      omega
    · simp only [h0, if_false]
      rw [ih (n / 10) _ (by omega)]
      simp only [List.foldl_cons, hd]
      congr 1
      omega

/-- The characters written by Nat.toDigitsCore are digits. -/
theorem toDigitsCore_chars (fuel : Nat) : ∀ (n : Nat) (ds : List Char),
    ∀ c ∈ Nat.toDigitsCore 10 fuel n ds, c ∈ ds ∨ (c ≠ ',' ∧ c ≠ '-') := by
  induction fuel with
  | zero => intro n ds c hc; exact Or.inl hc
  | succ fuel ih =>
    intro n ds c hc
    have hd := digitChar_ne (n % 10) (Nat.mod_lt _ (by decide))
    simp only [Nat.toDigitsCore] at hc
    by_cases h0 : n / 10 = 0
    · simp only [h0, if_true, List.mem_cons] at hc
      rcases hc with rfl | hc
      · exact Or.inr hd
      · exact Or.inl hc
    · simp only [h0, if_false] at hc
      rcases ih _ _ c hc with hc | hc
      · rcases List.mem_cons.mp hc with rfl | hc
        · exact Or.inr hd
        · exact Or.inl hc
      · exact Or.inr hc

/-- Reading back the decimal text of a natural number gives the number. -/
theorem natRepr_value (n : Nat) : digitsValue (Nat.repr n).data = n := by
  simp only [Nat.repr, Nat.toDigits, List.asString, digitsValue]
  rw [toDigitsCore_value (n + 1) n [] (by omega)]
  rfl

/-- The decimal text of a natural number has no comma and no minus sign. -/
theorem natRepr_chars (n : Nat) : ∀ c ∈ (Nat.repr n).data, c ≠ ',' ∧ c ≠ '-' := by
  intro c hc
  simp only [Nat.repr, Nat.toDigits, List.asString] at hc
  rcases toDigitsCore_chars _ _ _ c hc with h | h
  · simp at h
  · exact h

/-- The decimal text of an integer has no comma. -/
theorem intToString_chars (i : Int) : ∀ c ∈ (toString i).data, c ≠ ',' := by
  intro c hc
  cases i with
  | ofNat m => exact (natRepr_chars m c hc).1
  | negSucc m =>
    have hc2 : c ∈ ("-" ++ Nat.repr (m + 1)).data := hc
    rw [String.data_append] at hc2
    rcases List.mem_append.mp hc2 with h | h
    · have : c = '-' := by simpa using h
      rw [this]; decide
    · exact (natRepr_chars _ c h).1

/-- Two integers with the same decimal text are equal. -/
theorem intToString_injective (i j : Int) (h : toString i = toString j) : i = j := by
  cases i with
  | ofNat m =>
    cases j with
    | ofNat k =>
      have h2 : Nat.repr m = Nat.repr k := h
      have := congrArg (fun s : String => digitsValue s.data) h2
      simp only [natRepr_value] at this
      rw [this]
    | negSucc k =>
      have h2 : Nat.repr m = "-" ++ Nat.repr (k + 1) := h
      have hmem : '-' ∈ (Nat.repr m).data := by rw [h2, String.data_append]; simp
      exact absurd rfl (natRepr_chars m _ hmem).2
  | negSucc m =>
    cases j with
    | ofNat k =>
      have h2 : "-" ++ Nat.repr (m + 1) = Nat.repr k := h
      have hmem : '-' ∈ (Nat.repr k).data := by rw [← h2, String.data_append]; simp
      exact absurd rfl (natRepr_chars k _ hmem).2
    | negSucc k =>
      have h2 : "-" ++ Nat.repr (m + 1) = "-" ++ Nat.repr (k + 1) := h
      have h3 := congrArg String.data h2
      simp only [String.data_append, List.append_cancel_left_eq] at h3
      have := congrArg digitsValue h3
      simp only [natRepr_value] at this
      have : m = k := by omega
      rw [this]

/-- Two texts that agree, each cut at its first comma, agree part by part. -/
theorem split_at_comma : ∀ (xs xs2 ys ys2 : List Char),
    (∀ c ∈ xs, c ≠ ',') → (∀ c ∈ xs2, c ≠ ',') →
    xs ++ ',' :: ys = xs2 ++ ',' :: ys2 → xs = xs2 ∧ ys = ys2 := by
  intro xs
  induction xs with
  | nil =>
    intro xs2 ys ys2 _ h2 h
    cases xs2 with
    | nil => simpa using h
    | cons c cs =>
      simp only [List.nil_append, List.cons_append, List.cons.injEq] at h
      exact absurd h.1.symm (h2 c (List.mem_cons_self _ _))
  | cons x xs ih =>
    intro xs2 ys ys2 h1 h2 h
    cases xs2 with
    | nil =>
      simp only [List.nil_append, List.cons_append, List.cons.injEq] at h
      exact absurd h.1 (h1 x (List.mem_cons_self _ _))
    | cons c cs =>
      simp only [List.cons_append, List.cons.injEq] at h
      have := ih cs ys ys2 (fun c hc => h1 c (List.mem_cons_of_mem _ hc))
        (fun c hc => h2 c (List.mem_cons_of_mem _ hc)) h.2
      exact ⟨by rw [h.1, this.1], this.2⟩

/-- The message of the balance check determines the balance and the amount in it. -/
theorem notEnoughBalance_injective (b a b2 a2 : Int)
    (h : notEnoughBalance b a = notEnoughBalance b2 a2) : b = b2 ∧ a = a2 := by
  have h1 := congrArg String.data h
  simp only [notEnoughBalance, String.data_append, List.append_assoc,
    List.append_cancel_left_eq] at h1
  simp only [List.cons_append, List.nil_append] at h1
  have h2 := split_at_comma _ _ _ _ (intToString_chars b) (intToString_chars b2) h1
  refine ⟨intToString_injective _ _ (String.ext h2.1), ?_⟩
  have h3 := h2.2
  simp only [List.cons.injEq, true_and] at h3
  exact intToString_injective _ _ (String.ext h3)

/-- The message of the allowance check determines the allowance and the amount in it. -/
theorem approvalFailed_injective (b a b2 a2 : Int)
    (h : approvalFailed b a = approvalFailed b2 a2) : b = b2 ∧ a = a2 := by
  have h1 := congrArg String.data h
  simp only [approvalFailed, String.data_append, List.append_assoc,
    List.append_cancel_left_eq] at h1
  simp only [List.cons_append, List.nil_append] at h1
  have h2 := split_at_comma _ _ _ _ (intToString_chars b) (intToString_chars b2) h1
  refine ⟨intToString_injective _ _ (String.ext h2.1), ?_⟩
  have h3 := h2.2
  simp only [List.cons.injEq, true_and] at h3
  exact intToString_injective _ _ (String.ext h3)

/-- The two panic messages of the source never coincide: they start with different
letters. -/
theorem notEnoughBalance_ne_approvalFailed (balance amount allowance amount2 : Int) :
    notEnoughBalance balance amount ≠ approvalFailed allowance amount2 := by
  intro h
  have h2 := congrArg (fun s : String => s.data.head?) h
  simp [notEnoughBalance, approvalFailed, String.data_append] at h2

/-! ## The two checks -/

/-- A run whose balance query answers less than the amount ends with the panic of the
balance check. -/
theorem balance_check_panics (w : World) (env : Env) (l2ChainID : Nat)
    (l2BridgeAdapterAddress : Address) (amount : Int)
    (l1ToAddress l2TokenAddress : Address)
    (token : ERC20) (account : Address) (balance : Int)
    (hquery : Event.BalanceOf token account (.ok balance) ∈
      (WithdrawFromL2 w env l2ChainID l2BridgeAdapterAddress amount l1ToAddress
        l2TokenAddress).2)
    (hlt : balance < amount) :
    (WithdrawFromL2 w env l2ChainID l2BridgeAdapterAddress amount l1ToAddress
        l2TokenAddress).1 = .panicked (.msg (notEnoughBalance balance amount)) := by
  have h := WithdrawFromL2_shape w env l2ChainID l2BridgeAdapterAddress amount l1ToAddress
    l2TokenAddress
  generalize WithdrawFromL2 w env l2ChainID l2BridgeAdapterAddress amount l1ToAddress
    l2TokenAddress = run at h hquery
  cases h <;> simp_all <;> omega

/-- A run whose allowance re-query answers less than the amount ends with the panic of
the allowance check. -/
theorem allowance_check_panics (w : World) (env : Env) (l2ChainID : Nat)
    (l2BridgeAdapterAddress : Address) (amount : Int)
    (l1ToAddress l2TokenAddress : Address)
    (token : ERC20) (owner spender : Address) (allowance : Int)
    (hquery : Event.Allowance token owner spender (.ok allowance) ∈
      (WithdrawFromL2 w env l2ChainID l2BridgeAdapterAddress amount l1ToAddress
        l2TokenAddress).2)
    (hlt : allowance < amount) :
    (WithdrawFromL2 w env l2ChainID l2BridgeAdapterAddress amount l1ToAddress
        l2TokenAddress).1 = .panicked (.msg (approvalFailed allowance amount)) := by
  have h := WithdrawFromL2_shape w env l2ChainID l2BridgeAdapterAddress amount l1ToAddress
    l2TokenAddress
  generalize WithdrawFromL2 w env l2ChainID l2BridgeAdapterAddress amount l1ToAddress
    l2TokenAddress = run at h hquery
  cases h <;> simp_all <;> omega

/-! ## Favourable answers -/

/-- A run that receives favourable answers returns, having made the eight calls. -/
theorem favourable_returns (w : World) (env : Env) (l2ChainID : Nat)
    (l2BridgeAdapterAddress : Address) (amount : Int)
    (l1ToAddress l2TokenAddress : Address) (token : ERC20)
    (opts : TransactOpts) (balance : Int) (adapter : OptimismL2BridgeAdapter)
    (tx : Transaction) (receipt : Receipt) (allowance : Int) (tx2 : Transaction)
    (receipt2 : Receipt)
    (hf : Favourable w env l2ChainID l2BridgeAdapterAddress amount l1ToAddress
      l2TokenAddress token opts balance adapter tx receipt allowance tx2 receipt2) :
    WithdrawFromL2 w env l2ChainID l2BridgeAdapterAddress amount l1ToAddress
        l2TokenAddress =
      (.returned, completedCalls env l2ChainID l2BridgeAdapterAddress amount l1ToAddress
        l2TokenAddress token opts balance adapter tx receipt allowance tx2 receipt2) := by
  obtain ⟨h1, hopts, h2, hb, h3, h4, h5, h6, ha, h7, h8⟩ := hf
  simp only [completedCalls, List.take_succ_cons, List.take_zero] at h2 h3 h4 h5 h6 h7 h8
  unfold WithdrawFromL2
  simp only [List.cons_append, List.nil_append, ConfirmTXMined, PanicErr, h1, hopts, h2,
    not_lt.mpr hb, if_false, h3, h4, h5, h6, not_lt.mpr ha, h7, h8, completedCalls]

/-- A run that returns has received favourable answers. -/
theorem returned_favourable (w : World) (env : Env) (l2ChainID : Nat)
    (l2BridgeAdapterAddress : Address) (amount : Int)
    (l1ToAddress l2TokenAddress : Address)
    (hret : (WithdrawFromL2 w env l2ChainID l2BridgeAdapterAddress amount l1ToAddress
        l2TokenAddress).1 = .returned) :
    ∃ token opts balance adapter tx receipt allowance tx2 receipt2,
      Favourable w env l2ChainID l2BridgeAdapterAddress amount l1ToAddress
        l2TokenAddress token opts balance adapter tx receipt allowance tx2 receipt2 := by
  unfold WithdrawFromL2 at hret
  simp only [List.cons_append, List.nil_append] at hret
  cases h1 : w.NewERC20 [] l2TokenAddress (env.Clients l2ChainID) with
  | error e => simp [h1, PanicErr] at hret
  | ok token =>
  simp only [h1, PanicErr] at hret
  cases hopts : env.Transactors l2ChainID with
  | none => simp [hopts] at hret
  | some opts =>
  simp only [hopts] at hret
  cases h2 : w.BalanceOf [Event.NewERC20 l2TokenAddress (env.Clients l2ChainID) (.ok token)]
      token opts.From with
  | error e => simp [h2] at hret
  | ok balance =>
  simp only [h2] at hret
  by_cases hbal : balance < amount
  · simp [hbal] at hret
  simp only [hbal, if_false] at hret
  cases h3 : w.NewOptimismL2BridgeAdapter
      [Event.NewERC20 l2TokenAddress (env.Clients l2ChainID) (.ok token),
       Event.BalanceOf token opts.From (.ok balance)]
      l2BridgeAdapterAddress (env.Clients l2ChainID) with
  | error e => simp [h3] at hret
  | ok adapter =>
  simp only [h3] at hret
  cases h4 : w.Approve
      [Event.NewERC20 l2TokenAddress (env.Clients l2ChainID) (.ok token),
       Event.BalanceOf token opts.From (.ok balance),
       Event.NewOptimismL2BridgeAdapter l2BridgeAdapterAddress (env.Clients l2ChainID)
         (.ok adapter)]
      token opts l2BridgeAdapterAddress amount with
  | error e => simp [h4] at hret
  | ok tx =>
  simp only [h4, ConfirmTXMined] at hret
  cases h5 : w.Confirm
      [Event.NewERC20 l2TokenAddress (env.Clients l2ChainID) (.ok token),
       Event.BalanceOf token opts.From (.ok balance),
       Event.NewOptimismL2BridgeAdapter l2BridgeAdapterAddress (env.Clients l2ChainID)
         (.ok adapter),
       Event.Approve token opts l2BridgeAdapterAddress amount (.ok tx)]
      (env.Clients l2ChainID) tx (int64 l2ChainID) [] with
  | error e => simp [h5] at hret
  | ok receipt =>
  simp only [h5] at hret
  cases h6 : w.Allowance
      [Event.NewERC20 l2TokenAddress (env.Clients l2ChainID) (.ok token),
       Event.BalanceOf token opts.From (.ok balance),
       Event.NewOptimismL2BridgeAdapter l2BridgeAdapterAddress (env.Clients l2ChainID)
         (.ok adapter),
       Event.Approve token opts l2BridgeAdapterAddress amount (.ok tx),
       Event.ConfirmTXMined (env.Clients l2ChainID) tx (int64 l2ChainID) [] (.ok receipt)]
      token opts.From l2BridgeAdapterAddress with
  | error e => simp [h6] at hret
  | ok allowance =>
  simp only [h6] at hret
  by_cases hallow : allowance < amount
  · simp [hallow] at hret
  simp only [hallow, if_false] at hret
  cases h7 : w.SendERC20
      [Event.NewERC20 l2TokenAddress (env.Clients l2ChainID) (.ok token),
       Event.BalanceOf token opts.From (.ok balance),
       Event.NewOptimismL2BridgeAdapter l2BridgeAdapterAddress (env.Clients l2ChainID)
         (.ok adapter),
       Event.Approve token opts l2BridgeAdapterAddress amount (.ok tx),
       Event.ConfirmTXMined (env.Clients l2ChainID) tx (int64 l2ChainID) [] (.ok receipt),
       Event.Allowance token opts.From l2BridgeAdapterAddress (.ok allowance)]
      adapter opts l2TokenAddress 0 l1ToAddress amount [] with
  | error e => simp [h7] at hret
  | ok tx2 =>
  simp only [h7] at hret
  cases h8 : w.Confirm
      [Event.NewERC20 l2TokenAddress (env.Clients l2ChainID) (.ok token),
       Event.BalanceOf token opts.From (.ok balance),
       Event.NewOptimismL2BridgeAdapter l2BridgeAdapterAddress (env.Clients l2ChainID)
         (.ok adapter),
       Event.Approve token opts l2BridgeAdapterAddress amount (.ok tx),
       Event.ConfirmTXMined (env.Clients l2ChainID) tx (int64 l2ChainID) [] (.ok receipt),
       Event.Allowance token opts.From l2BridgeAdapterAddress (.ok allowance),
       Event.SendERC20 adapter opts l2TokenAddress 0 l1ToAddress amount [] (.ok tx2)]
      (env.Clients l2ChainID) tx2 (int64 l2ChainID) ["WithdrawFromL2"] with
  | error e => simp [h8] at hret
  | ok receipt2 =>
  refine ⟨token, opts, balance, adapter, tx, receipt, allowance, tx2, receipt2, ?_⟩
  simp only [Favourable, completedCalls, List.take_succ_cons, List.take_zero]
  exact ⟨h1, hopts, h2, not_lt.mp hbal, h3, h4, h5, h6, not_lt.mp hallow, h7, h8⟩

/-! ## P1: precondition gating -/

/-- C1 (P1, precondition gating): in every run where the balance query answers a value
strictly below the requested amount, the run ends with the panic of the balance check
(the InsufficientBalance failure) and no transaction is submitted: the run contains no
approve call and no withdrawal call. -/
theorem insufficient_balance_gates (w : World) (env : Env) (l2ChainID : Nat)
    (l2BridgeAdapterAddress : Address) (amount : Int)
    (l1ToAddress l2TokenAddress : Address)
    (token : ERC20) (account : Address) (balance : Int)
    (hquery : Event.BalanceOf token account (.ok balance) ∈
      (WithdrawFromL2 w env l2ChainID l2BridgeAdapterAddress amount l1ToAddress
        l2TokenAddress).2)
    (hlt : balance < amount) :
    (WithdrawFromL2 w env l2ChainID l2BridgeAdapterAddress amount l1ToAddress
        l2TokenAddress).1 = .panicked (.msg (notEnoughBalance balance amount)) ∧
    submitted (WithdrawFromL2 w env l2ChainID l2BridgeAdapterAddress amount l1ToAddress
        l2TokenAddress).2 = [] := by
  have h := WithdrawFromL2_shape w env l2ChainID l2BridgeAdapterAddress amount l1ToAddress
    l2TokenAddress
  generalize WithdrawFromL2 w env l2ChainID l2BridgeAdapterAddress amount l1ToAddress
    l2TokenAddress = run at h hquery
  cases h <;> simp_all [submitted, Event.isApprove, Event.isSendERC20] <;> omega

/-- Witness of C1: balance 30, amount 50. -/
theorem insufficient_balance_gates_witness :
    Event.BalanceOf 1 9 (.ok 30) ∈
      (WithdrawFromL2 (scriptedWorld 30 50 (.ok 4) (.ok 6)) scriptedEnv 10 8 50 11 12).2 ∧
    (30 : Int) < 50 ∧
    (WithdrawFromL2 (scriptedWorld 30 50 (.ok 4) (.ok 6)) scriptedEnv 10 8 50 11 12).1 =
        .panicked (.msg (notEnoughBalance 30 50)) ∧
    submitted
      (WithdrawFromL2 (scriptedWorld 30 50 (.ok 4) (.ok 6)) scriptedEnv 10 8 50 11 12).2 =
        [] :=
  ⟨by decide, by decide,
   insufficient_balance_gates (scriptedWorld 30 50 (.ok 4) (.ok 6)) scriptedEnv 10 8 50 11 12
     1 9 30 (by decide) (by decide)⟩

/-! ## P4: allowance guard -/

/-- C2 (P4, allowance guard): in every run where the allowance re-query answers a value
strictly below the requested amount (the query is only made once the balance check has
passed and the approve transaction is confirmed), the run ends with the panic of the
allowance check (the ApprovalMismatch failure) and the withdrawal submission SendERC20 is
never called. -/
theorem allowance_guard (w : World) (env : Env) (l2ChainID : Nat)
    (l2BridgeAdapterAddress : Address) (amount : Int)
    (l1ToAddress l2TokenAddress : Address)
    (token : ERC20) (owner spender : Address) (allowance : Int)
    (hquery : Event.Allowance token owner spender (.ok allowance) ∈
      (WithdrawFromL2 w env l2ChainID l2BridgeAdapterAddress amount l1ToAddress
        l2TokenAddress).2)
    (hlt : allowance < amount) :
    (WithdrawFromL2 w env l2ChainID l2BridgeAdapterAddress amount l1ToAddress
        l2TokenAddress).1 = .panicked (.msg (approvalFailed allowance amount)) ∧
    (WithdrawFromL2 w env l2ChainID l2BridgeAdapterAddress amount l1ToAddress
        l2TokenAddress).2.filter Event.isSendERC20 = [] ∧
    (∃ balance tx receipt, amount ≤ balance ∧
      Event.BalanceOf token owner (.ok balance) ∈
        (WithdrawFromL2 w env l2ChainID l2BridgeAdapterAddress amount l1ToAddress
          l2TokenAddress).2 ∧
      Event.ConfirmTXMined (env.Clients l2ChainID) tx (int64 l2ChainID) [] (.ok receipt) ∈
        (WithdrawFromL2 w env l2ChainID l2BridgeAdapterAddress amount l1ToAddress
          l2TokenAddress).2) := by
  have h := WithdrawFromL2_shape w env l2ChainID l2BridgeAdapterAddress amount l1ToAddress
    l2TokenAddress
  generalize WithdrawFromL2 w env l2ChainID l2BridgeAdapterAddress amount l1ToAddress
    l2TokenAddress = run at h hquery
  cases h <;> simp_all [Event.isSendERC20] <;> omega

/-- Witness of C2: balance 100, amount 50, the approval is confirmed, allowance 20. -/
theorem allowance_guard_witness :
    Event.Allowance 1 9 8 (.ok 20) ∈
      (WithdrawFromL2 (scriptedWorld 100 20 (.ok 4) (.ok 6)) scriptedEnv 10 8 50 11 12).2 ∧
    (20 : Int) < 50 ∧
    (WithdrawFromL2 (scriptedWorld 100 20 (.ok 4) (.ok 6)) scriptedEnv 10 8 50 11 12).1 =
        .panicked (.msg (approvalFailed 20 50)) ∧
    (WithdrawFromL2 (scriptedWorld 100 20 (.ok 4) (.ok 6)) scriptedEnv 10 8 50 11 12).2.filter
        Event.isSendERC20 = [] :=
  have h := allowance_guard (scriptedWorld 100 20 (.ok 4) (.ok 6)) scriptedEnv 10 8 50 11 12
    1 9 8 20 (by decide) (by decide)
  ⟨by decide, by decide, h.1, h.2.1⟩

/-! ## P5: fail-fast on confirmation failure -/

/-- C3, as stated, fails: the same request is run in a world where the approve transaction
reverts and in a world where the withdrawal transaction reverts. Both runs end with the
very same panic value, the confirmer's error, so the failure names neither "approve" nor
"withdraw": no reading of the failure gives the step. -/
theorem confirmation_failure_step_not_named :
    Event.ConfirmTXMined (some 7) 3 10 [] (.error .reverted) ∈
      (WithdrawFromL2 (scriptedWorld 100 50 (.error .reverted) (.ok 6)) scriptedEnv
        10 8 50 11 12).2 ∧
    Event.ConfirmTXMined (some 7) 5 10 ["WithdrawFromL2"] (.error .reverted) ∈
      (WithdrawFromL2 (scriptedWorld 100 50 (.ok 4) (.error .reverted)) scriptedEnv
        10 8 50 11 12).2 ∧
    (WithdrawFromL2 (scriptedWorld 100 50 (.error .reverted) (.ok 6)) scriptedEnv
        10 8 50 11 12).1 = .panicked (.confirmation .reverted) ∧
    (WithdrawFromL2 (scriptedWorld 100 50 (.ok 4) (.error .reverted)) scriptedEnv
        10 8 50 11 12).1 = .panicked (.confirmation .reverted) ∧
    ¬ ∃ stepName : Outcome → String,
      stepName (WithdrawFromL2 (scriptedWorld 100 50 (.error .reverted) (.ok 6)) scriptedEnv
        10 8 50 11 12).1 = "approve" ∧
      stepName (WithdrawFromL2 (scriptedWorld 100 50 (.ok 4) (.error .reverted)) scriptedEnv
        10 8 50 11 12).1 = "withdraw" := by
  refine ⟨by decide, by decide, by decide, by decide, ?_⟩
  rintro ⟨stepName, ha, hb⟩
  have hA : (WithdrawFromL2 (scriptedWorld 100 50 (.error .reverted) (.ok 6)) scriptedEnv
      10 8 50 11 12).1 = .panicked (.confirmation .reverted) := by decide
  have hB : (WithdrawFromL2 (scriptedWorld 100 50 (.ok 4) (.error .reverted)) scriptedEnv
      10 8 50 11 12).1 = .panicked (.confirmation .reverted) := by decide
  rw [hA] at ha
  rw [hB, ha] at hb
  exact absurd hb (by decide)

/-- C3, amended (P5, fail-fast): when the confirmation of a submitted transaction fails,
the run ends at once with the confirmer's error itself as the panic value (no step name
is attached to it); the failed confirmation is the last call of the run, it is the
confirmation of the last submitted transaction, and when it is the confirmation of the
approve transaction (the call that carries no label) no allowance query and no withdrawal
submission is made. -/
theorem confirmation_failure_aborts (w : World) (env : Env) (l2ChainID : Nat)
    (l2BridgeAdapterAddress : Address) (amount : Int)
    (l1ToAddress l2TokenAddress : Address)
    (client : Option Client) (tx : Transaction) (chainID : Int) (txInfo : List String)
    (e : ConfirmationError)
    (hfail : Event.ConfirmTXMined client tx chainID txInfo (.error e) ∈
      (WithdrawFromL2 w env l2ChainID l2BridgeAdapterAddress amount l1ToAddress
        l2TokenAddress).2) :
    (WithdrawFromL2 w env l2ChainID l2BridgeAdapterAddress amount l1ToAddress
        l2TokenAddress).1 = .panicked (.confirmation e) ∧
    (WithdrawFromL2 w env l2ChainID l2BridgeAdapterAddress amount l1ToAddress
        l2TokenAddress).2.getLast? =
      some (Event.ConfirmTXMined client tx chainID txInfo (.error e)) ∧
    (submittedTxs (WithdrawFromL2 w env l2ChainID l2BridgeAdapterAddress amount l1ToAddress
        l2TokenAddress).2).getLast? = some tx ∧
    (txInfo = [] ∨ txInfo = ["WithdrawFromL2"]) ∧
    (txInfo = [] →
      (WithdrawFromL2 w env l2ChainID l2BridgeAdapterAddress amount l1ToAddress
        l2TokenAddress).2.filter Event.isAllowance = [] ∧
      (WithdrawFromL2 w env l2ChainID l2BridgeAdapterAddress amount l1ToAddress
        l2TokenAddress).2.filter Event.isSendERC20 = []) := by
  have h := WithdrawFromL2_shape w env l2ChainID l2BridgeAdapterAddress amount l1ToAddress
    l2TokenAddress
  generalize WithdrawFromL2 w env l2ChainID l2BridgeAdapterAddress amount l1ToAddress
    l2TokenAddress = run at h hfail
  cases h <;> simp_all [submittedTxs, Event.isSendERC20, Event.isAllowance]

/-- Witness of amended C3: balance 100, amount 50, the approval transaction reverts. -/
theorem confirmation_failure_aborts_witness :
    Event.ConfirmTXMined (some 7) 3 10 [] (.error .reverted) ∈
      (WithdrawFromL2 (scriptedWorld 100 50 (.error .reverted) (.ok 6)) scriptedEnv
        10 8 50 11 12).2 ∧
    (WithdrawFromL2 (scriptedWorld 100 50 (.error .reverted) (.ok 6)) scriptedEnv
        10 8 50 11 12).1 = .panicked (.confirmation .reverted) ∧
    (WithdrawFromL2 (scriptedWorld 100 50 (.error .reverted) (.ok 6)) scriptedEnv
        10 8 50 11 12).2.filter Event.isSendERC20 = [] :=
  have h := confirmation_failure_aborts (scriptedWorld 100 50 (.error .reverted) (.ok 6))
    scriptedEnv 10 8 50 11 12 (some 7) 3 10 [] .reverted (by decide)
  ⟨by decide, h.1, (h.2.2.2.2 rfl).2⟩

/-! ## P3: ordering -/

/-- C4 (P3, ordering): in every run, the calls made before a call to the withdrawal
submission SendERC20 are exactly, in this order: the token binding, the balance query,
the adapter binding, the approve submission (answered with a transaction), the
confirmation of that very transaction (answered with a receipt, so successful), and the
allowance re-query. So the withdrawal is never submitted before the approval transaction
is confirmed. -/
theorem withdrawal_after_confirmed_approval (w : World) (env : Env) (l2ChainID : Nat)
    (l2BridgeAdapterAddress : Address) (amount : Int)
    (l1ToAddress l2TokenAddress : Address) (i : Nat)
    (adapter : OptimismL2BridgeAdapter) (opts : TransactOpts)
    (localToken remoteToken recipient : Address) (am : Int) (data : List Nat)
    (res : Except GoError Transaction)
    (hsend : (WithdrawFromL2 w env l2ChainID l2BridgeAdapterAddress amount l1ToAddress
        l2TokenAddress).2[i]? =
      some (Event.SendERC20 adapter opts localToken remoteToken recipient am data res)) :
    ∃ token balance tx receipt allowance,
      (WithdrawFromL2 w env l2ChainID l2BridgeAdapterAddress amount l1ToAddress
        l2TokenAddress).2.take i =
        [Event.NewERC20 l2TokenAddress (env.Clients l2ChainID) (.ok token),
         Event.BalanceOf token opts.From (.ok balance),
         Event.NewOptimismL2BridgeAdapter l2BridgeAdapterAddress (env.Clients l2ChainID)
           (.ok adapter),
         Event.Approve token opts l2BridgeAdapterAddress amount (.ok tx),
         Event.ConfirmTXMined (env.Clients l2ChainID) tx (int64 l2ChainID) [] (.ok receipt),
         Event.Allowance token opts.From l2BridgeAdapterAddress (.ok allowance)] := by
  have h := WithdrawFromL2_shape w env l2ChainID l2BridgeAdapterAddress amount l1ToAddress
    l2TokenAddress
  generalize WithdrawFromL2 w env l2ChainID l2BridgeAdapterAddress amount l1ToAddress
    l2TokenAddress = run at h hsend
  cases h <;> rcases i with _ | _ | _ | _ | _ | _ | _ | _ | i <;> simp_all

/-- Witness of C4: balance 100, amount 50, allowance 50; the withdrawal is the seventh
call of the run. -/
theorem withdrawal_after_confirmed_approval_witness :
    (WithdrawFromL2 (scriptedWorld 100 50 (.ok 4) (.ok 6)) scriptedEnv 10 8 50 11 12).2[6]? =
      some (Event.SendERC20 2 ⟨9, 1⟩ 12 0 11 50 [] (.ok 5)) ∧
    ∃ token balance tx receipt allowance,
      (WithdrawFromL2 (scriptedWorld 100 50 (.ok 4) (.ok 6)) scriptedEnv
        10 8 50 11 12).2.take 6 =
        [Event.NewERC20 12 (scriptedEnv.Clients 10) (.ok token),
         Event.BalanceOf token 9 (.ok balance),
         Event.NewOptimismL2BridgeAdapter 8 (scriptedEnv.Clients 10) (.ok 2),
         Event.Approve token ⟨9, 1⟩ 8 50 (.ok tx),
         Event.ConfirmTXMined (scriptedEnv.Clients 10) tx (int64 10) [] (.ok receipt),
         Event.Allowance token 9 8 (.ok allowance)] :=
  ⟨by decide,
   withdrawal_after_confirmed_approval (scriptedWorld 100 50 (.ok 4) (.ok 6)) scriptedEnv
     10 8 50 11 12 6 2 ⟨9, 1⟩ 12 0 11 50 [] (.ok 5) (by decide)⟩

/-! ## P2: amount invariance -/

/-- C5 (P2, amount invariance): in every run, the amount given to approve and the amount
given to the withdrawal submission are the requested amount, and the two checks compare
with the requested amount: the run ends with the panic of the balance check exactly when
the queried balance is below the requested amount, and with the panic of the allowance
check exactly when the queried allowance is below the requested amount. -/
theorem amount_invariance (w : World) (env : Env) (l2ChainID : Nat)
    (l2BridgeAdapterAddress : Address) (amount : Int)
    (l1ToAddress l2TokenAddress : Address) :
    (∀ token opts spender am res,
      Event.Approve token opts spender am res ∈
        (WithdrawFromL2 w env l2ChainID l2BridgeAdapterAddress amount l1ToAddress
          l2TokenAddress).2 → am = amount) ∧
    (∀ adapter opts localToken remoteToken recipient am data res,
      Event.SendERC20 adapter opts localToken remoteToken recipient am data res ∈
        (WithdrawFromL2 w env l2ChainID l2BridgeAdapterAddress amount l1ToAddress
          l2TokenAddress).2 → am = amount) ∧
    (∀ token account balance,
      Event.BalanceOf token account (.ok balance) ∈
        (WithdrawFromL2 w env l2ChainID l2BridgeAdapterAddress amount l1ToAddress
          l2TokenAddress).2 →
      (balance < amount ↔
        (WithdrawFromL2 w env l2ChainID l2BridgeAdapterAddress amount l1ToAddress
          l2TokenAddress).1 = .panicked (.msg (notEnoughBalance balance amount)))) ∧
    (∀ token owner spender allowance,
      Event.Allowance token owner spender (.ok allowance) ∈
        (WithdrawFromL2 w env l2ChainID l2BridgeAdapterAddress amount l1ToAddress
          l2TokenAddress).2 →
      (allowance < amount ↔
        (WithdrawFromL2 w env l2ChainID l2BridgeAdapterAddress amount l1ToAddress
          l2TokenAddress).1 = .panicked (.msg (approvalFailed allowance amount)))) := by
  have h := WithdrawFromL2_shape w env l2ChainID l2BridgeAdapterAddress amount l1ToAddress
    l2TokenAddress
  generalize WithdrawFromL2 w env l2ChainID l2BridgeAdapterAddress amount l1ToAddress
    l2TokenAddress = run at h
  have hne := notEnoughBalance_ne_approvalFailed
  have hne2 : ∀ a b c d : Int, approvalFailed a b ≠ notEnoughBalance c d :=
    fun a b c d h => hne c d a b h.symm
  cases h <;> simp_all

/-- Witness of C5: balance 100, amount 50, allowance 50; the approve call of the run
carries the amount 50. -/
theorem amount_invariance_witness :
    Event.Approve 1 ⟨9, 1⟩ 8 50 (.ok 3) ∈
      (WithdrawFromL2 (scriptedWorld 100 50 (.ok 4) (.ok 6)) scriptedEnv 10 8 50 11 12).2 ∧
    (50 : Int) = 50 :=
  ⟨by decide,
   (amount_invariance (scriptedWorld 100 50 (.ok 4) (.ok 6)) scriptedEnv 10 8 50 11 12).1
     1 ⟨9, 1⟩ 8 50 (.ok 3) (by decide)⟩

/-! ## Success -/

/-- C6 (success characterisation): a run returns if and only if the world answers
favourably along it: the transactor is configured, the balance query answers a value at
least the requested amount, the approve submission and its confirmation succeed, the
allowance re-query answers a value at least the requested amount, and the withdrawal
submission and its confirmation succeed (with the two bindings). Whenever the world
answers so, the run returns after exactly the eight calls, and submits exactly two
transactions: the approve first, the withdrawal second; in particular it returns in a
world that answers every call with a value, whatever the history. The same is read off
the run's own calls: it returns exactly when they hold every successful call. -/
theorem success_characterisation (w : World) (env : Env) (l2ChainID : Nat)
    (l2BridgeAdapterAddress : Address) (amount : Int)
    (l1ToAddress l2TokenAddress : Address) :
    ((WithdrawFromL2 w env l2ChainID l2BridgeAdapterAddress amount l1ToAddress
        l2TokenAddress).1 = .returned ↔
      ∃ token opts balance adapter tx receipt allowance tx2 receipt2,
        Favourable w env l2ChainID l2BridgeAdapterAddress amount l1ToAddress
          l2TokenAddress token opts balance adapter tx receipt allowance tx2 receipt2) ∧
    (∀ token opts balance adapter tx receipt allowance tx2 receipt2,
      Favourable w env l2ChainID l2BridgeAdapterAddress amount l1ToAddress
        l2TokenAddress token opts balance adapter tx receipt allowance tx2 receipt2 →
      WithdrawFromL2 w env l2ChainID l2BridgeAdapterAddress amount l1ToAddress
          l2TokenAddress =
        (.returned, completedCalls env l2ChainID l2BridgeAdapterAddress amount l1ToAddress
          l2TokenAddress token opts balance adapter tx receipt allowance tx2 receipt2) ∧
      submitted (WithdrawFromL2 w env l2ChainID l2BridgeAdapterAddress amount l1ToAddress
          l2TokenAddress).2 =
        [Event.Approve token opts l2BridgeAdapterAddress amount (.ok tx),
         Event.SendERC20 adapter opts l2TokenAddress 0 l1ToAddress amount []
           (.ok tx2)]) ∧
    (∀ token opts balance adapter tx receipt allowance tx2 receipt2,
      env.Transactors l2ChainID = some opts →
      amount ≤ balance → amount ≤ allowance →
      (∀ hist, w.NewERC20 hist l2TokenAddress (env.Clients l2ChainID) = .ok token) →
      (∀ hist, w.BalanceOf hist token opts.From = .ok balance) →
      (∀ hist, w.NewOptimismL2BridgeAdapter hist l2BridgeAdapterAddress
        (env.Clients l2ChainID) = .ok adapter) →
      (∀ hist, w.Approve hist token opts l2BridgeAdapterAddress amount = .ok tx) →
      (∀ hist, w.Confirm hist (env.Clients l2ChainID) tx (int64 l2ChainID) [] =
        .ok receipt) →
      (∀ hist, w.Allowance hist token opts.From l2BridgeAdapterAddress = .ok allowance) →
      (∀ hist, w.SendERC20 hist adapter opts l2TokenAddress 0 l1ToAddress amount [] =
        .ok tx2) →
      (∀ hist, w.Confirm hist (env.Clients l2ChainID) tx2 (int64 l2ChainID)
        ["WithdrawFromL2"] = .ok receipt2) →
      (WithdrawFromL2 w env l2ChainID l2BridgeAdapterAddress amount l1ToAddress
          l2TokenAddress).1 = .returned) ∧
    ((WithdrawFromL2 w env l2ChainID l2BridgeAdapterAddress amount l1ToAddress
        l2TokenAddress).1 = .returned ↔
      ∃ token opts balance adapter tx receipt allowance tx2 receipt2,
        amount ≤ balance ∧ amount ≤ allowance ∧
        Event.BalanceOf token opts.From (.ok balance) ∈
          (WithdrawFromL2 w env l2ChainID l2BridgeAdapterAddress amount l1ToAddress
            l2TokenAddress).2 ∧
        Event.Approve token opts l2BridgeAdapterAddress amount (.ok tx) ∈
          (WithdrawFromL2 w env l2ChainID l2BridgeAdapterAddress amount l1ToAddress
            l2TokenAddress).2 ∧
        Event.ConfirmTXMined (env.Clients l2ChainID) tx (int64 l2ChainID) []
            (.ok receipt) ∈
          (WithdrawFromL2 w env l2ChainID l2BridgeAdapterAddress amount l1ToAddress
            l2TokenAddress).2 ∧
        Event.Allowance token opts.From l2BridgeAdapterAddress (.ok allowance) ∈
          (WithdrawFromL2 w env l2ChainID l2BridgeAdapterAddress amount l1ToAddress
            l2TokenAddress).2 ∧
        Event.SendERC20 adapter opts l2TokenAddress 0 l1ToAddress amount [] (.ok tx2) ∈
          (WithdrawFromL2 w env l2ChainID l2BridgeAdapterAddress amount l1ToAddress
            l2TokenAddress).2 ∧
        Event.ConfirmTXMined (env.Clients l2ChainID) tx2 (int64 l2ChainID)
            ["WithdrawFromL2"] (.ok receipt2) ∈
          (WithdrawFromL2 w env l2ChainID l2BridgeAdapterAddress amount l1ToAddress
            l2TokenAddress).2) ∧
    ((WithdrawFromL2 w env l2ChainID l2BridgeAdapterAddress amount l1ToAddress
        l2TokenAddress).1 = .returned →
      ∃ token opts balance adapter tx receipt allowance tx2 receipt2,
        amount ≤ balance ∧ amount ≤ allowance ∧
        (WithdrawFromL2 w env l2ChainID l2BridgeAdapterAddress amount l1ToAddress
            l2TokenAddress).2 =
          [Event.NewERC20 l2TokenAddress (env.Clients l2ChainID) (.ok token),
           Event.BalanceOf token opts.From (.ok balance),
           Event.NewOptimismL2BridgeAdapter l2BridgeAdapterAddress (env.Clients l2ChainID)
             (.ok adapter),
           Event.Approve token opts l2BridgeAdapterAddress amount (.ok tx),
           Event.ConfirmTXMined (env.Clients l2ChainID) tx (int64 l2ChainID) []
             (.ok receipt),
           Event.Allowance token opts.From l2BridgeAdapterAddress (.ok allowance),
           Event.SendERC20 adapter opts l2TokenAddress 0 l1ToAddress amount [] (.ok tx2),
           Event.ConfirmTXMined (env.Clients l2ChainID) tx2 (int64 l2ChainID)
             ["WithdrawFromL2"] (.ok receipt2)] ∧
        submitted (WithdrawFromL2 w env l2ChainID l2BridgeAdapterAddress amount l1ToAddress
            l2TokenAddress).2 =
          [Event.Approve token opts l2BridgeAdapterAddress amount (.ok tx),
           Event.SendERC20 adapter opts l2TokenAddress 0 l1ToAddress amount []
             (.ok tx2)]) := by
  have hfwd : ∀ token opts balance adapter tx receipt allowance tx2 receipt2,
      Favourable w env l2ChainID l2BridgeAdapterAddress amount l1ToAddress
        l2TokenAddress token opts balance adapter tx receipt allowance tx2 receipt2 →
      WithdrawFromL2 w env l2ChainID l2BridgeAdapterAddress amount l1ToAddress
          l2TokenAddress =
        (.returned, completedCalls env l2ChainID l2BridgeAdapterAddress amount l1ToAddress
          l2TokenAddress token opts balance adapter tx receipt allowance tx2 receipt2) :=
    fun token opts balance adapter tx receipt allowance tx2 receipt2 hf =>
      favourable_returns w env l2ChainID l2BridgeAdapterAddress amount l1ToAddress
        l2TokenAddress token opts balance adapter tx receipt allowance tx2 receipt2 hf
  refine ⟨⟨fun hret => returned_favourable w env l2ChainID l2BridgeAdapterAddress amount
      l1ToAddress l2TokenAddress hret, ?_⟩, ?_, ?_, ?_⟩
  · rintro ⟨token, opts, balance, adapter, tx, receipt, allowance, tx2, receipt2, hf⟩
    rw [hfwd _ _ _ _ _ _ _ _ _ hf]
  · intro token opts balance adapter tx receipt allowance tx2 receipt2 hf
    refine ⟨hfwd _ _ _ _ _ _ _ _ _ hf, ?_⟩
    rw [hfwd _ _ _ _ _ _ _ _ _ hf]
    simp [completedCalls, submitted, Event.isApprove, Event.isSendERC20]
  · intro token opts balance adapter tx receipt allowance tx2 receipt2 hopts hbal hallow
      h1 h2 h3 h4 h5 h6 h7 h8
    rw [hfwd token opts balance adapter tx receipt allowance tx2 receipt2
      ⟨h1 _, hopts, h2 _, hbal, h3 _, h4 _, h5 _, h6 _, hallow, h7 _, h8 _⟩]
  have h := WithdrawFromL2_shape w env l2ChainID l2BridgeAdapterAddress amount l1ToAddress
    l2TokenAddress
  generalize WithdrawFromL2 w env l2ChainID l2BridgeAdapterAddress amount l1ToAddress
    l2TokenAddress = run at h
  cases h with
  | completed token opts hopts balance hbal l2Adapter tx receipt allowance hallow tx2
      receipt2 =>
    refine ⟨⟨fun _ => ⟨token, opts, balance, l2Adapter, tx, receipt, allowance, tx2,
      receipt2, hbal, hallow, by simp, by simp, by simp, by simp, by simp, by simp⟩,
      fun _ => rfl⟩, fun _ => ⟨token, opts, balance, l2Adapter, tx, receipt, allowance, tx2,
      receipt2, hbal, hallow, rfl, ?_⟩⟩
    simp [submitted, Event.isApprove, Event.isSendERC20]
  | _ => simp

/-- Witness of C6: with balance 100, amount 50 and allowance 50, both transactions
confirmed, the world answers favourably and the run returns after the eight calls, with
two submissions; with balance, amount and allowance all equal to 50 the run returns too
(equality is accepted at both checks). -/
theorem success_characterisation_witness :
    Favourable (scriptedWorld 100 50 (.ok 4) (.ok 6)) scriptedEnv 10 8 50 11 12
      1 ⟨9, 1⟩ 100 2 3 4 50 5 6 ∧
    WithdrawFromL2 (scriptedWorld 100 50 (.ok 4) (.ok 6)) scriptedEnv 10 8 50 11 12 =
      (.returned, completedCalls scriptedEnv 10 8 50 11 12 1 ⟨9, 1⟩ 100 2 3 4 50 5 6) ∧
    submitted
        (WithdrawFromL2 (scriptedWorld 100 50 (.ok 4) (.ok 6)) scriptedEnv 10 8 50 11 12).2 =
      [Event.Approve 1 ⟨9, 1⟩ 8 50 (.ok 3),
       Event.SendERC20 2 ⟨9, 1⟩ 12 0 11 50 [] (.ok 5)] ∧
    (WithdrawFromL2 (scriptedWorld 50 50 (.ok 4) (.ok 6)) scriptedEnv 10 8 50 11 12).1 =
      .returned :=
  have hf : Favourable (scriptedWorld 100 50 (.ok 4) (.ok 6)) scriptedEnv 10 8 50 11 12
      1 ⟨9, 1⟩ 100 2 3 4 50 5 6 :=
    ⟨rfl, rfl, rfl, by decide, rfl, rfl, rfl, rfl, by decide, rfl, rfl⟩
  have h := (success_characterisation (scriptedWorld 100 50 (.ok 4) (.ok 6)) scriptedEnv
    10 8 50 11 12).2.1 1 ⟨9, 1⟩ 100 2 3 4 50 5 6 hf
  ⟨hf, h.1, h.2,
   (success_characterisation (scriptedWorld 50 50 (.ok 4) (.ok 6)) scriptedEnv
     10 8 50 11 12).1.mpr
     ⟨1, ⟨9, 1⟩, 50, 2, 3, 4, 50, 5, 6,
      ⟨rfl, rfl, rfl, by decide, rfl, rfl, rfl, rfl, by decide, rfl, rfl⟩⟩⟩

/-! ## Error context -/

/-- C7 (error context): the panic of the balance check carries exactly the balance
answered by the balance query and the requested amount, and the panic of the allowance
check carries exactly the allowance answered by the allowance re-query and the requested
amount: both numbers are written in decimal into the message, and they are the only
numbers the message can be read as carrying. -/
theorem error_context (w : World) (env : Env) (l2ChainID : Nat)
    (l2BridgeAdapterAddress : Address) (amount : Int)
    (l1ToAddress l2TokenAddress : Address) :
    (∀ token account balance,
      Event.BalanceOf token account (.ok balance) ∈
        (WithdrawFromL2 w env l2ChainID l2BridgeAdapterAddress amount l1ToAddress
          l2TokenAddress).2 →
      balance < amount →
      (WithdrawFromL2 w env l2ChainID l2BridgeAdapterAddress amount l1ToAddress
          l2TokenAddress).1 =
        .panicked (.msg
          ("not enough balance to withdraw, get more tokens or specify less amount, bal: "
            ++ toString balance ++ ", want: " ++ toString amount)) ∧
      ∀ b a : Int,
        (WithdrawFromL2 w env l2ChainID l2BridgeAdapterAddress amount l1ToAddress
          l2TokenAddress).1 = .panicked (.msg (notEnoughBalance b a)) →
        b = balance ∧ a = amount) ∧
    (∀ token owner spender allowance,
      Event.Allowance token owner spender (.ok allowance) ∈
        (WithdrawFromL2 w env l2ChainID l2BridgeAdapterAddress amount l1ToAddress
          l2TokenAddress).2 →
      allowance < amount →
      (WithdrawFromL2 w env l2ChainID l2BridgeAdapterAddress amount l1ToAddress
          l2TokenAddress).1 =
        .panicked (.msg
          ("approval failed, allowance: " ++ toString allowance ++ ", expected amount: "
            ++ toString amount)) ∧
      ∀ b a : Int,
        (WithdrawFromL2 w env l2ChainID l2BridgeAdapterAddress amount l1ToAddress
          l2TokenAddress).1 = .panicked (.msg (approvalFailed b a)) →
        b = allowance ∧ a = amount) := by
  refine ⟨fun token account balance hmem hlt => ?_,
    fun token owner spender allowance hmem hlt => ?_⟩
  · have h1 := balance_check_panics w env l2ChainID l2BridgeAdapterAddress amount l1ToAddress
      l2TokenAddress token account balance hmem hlt
    refine ⟨h1, fun b a hba => ?_⟩
    rw [h1] at hba
    simp only [Outcome.panicked.injEq, PanicValue.msg.injEq] at hba
    exact notEnoughBalance_injective _ _ _ _ hba.symm
  · have h1 := allowance_check_panics w env l2ChainID l2BridgeAdapterAddress amount
      l1ToAddress l2TokenAddress token owner spender allowance hmem hlt
    refine ⟨h1, fun b a hba => ?_⟩
    rw [h1] at hba
    simp only [Outcome.panicked.injEq, PanicValue.msg.injEq] at hba
    exact approvalFailed_injective _ _ _ _ hba.symm

/-- Witness of C7: balance 30 against amount 50, and allowance 20 against amount 50. -/
theorem error_context_witness :
    (WithdrawFromL2 (scriptedWorld 30 50 (.ok 4) (.ok 6)) scriptedEnv 10 8 50 11 12).1 =
      .panicked (.msg
        "not enough balance to withdraw, get more tokens or specify less amount, bal: 30, want: 50") ∧
    (WithdrawFromL2 (scriptedWorld 100 20 (.ok 4) (.ok 6)) scriptedEnv 10 8 50 11 12).1 =
      .panicked (.msg "approval failed, allowance: 20, expected amount: 50") :=
  ⟨((error_context (scriptedWorld 30 50 (.ok 4) (.ok 6)) scriptedEnv 10 8 50 11 12).1
      1 9 30 (by decide) (by decide)).1,
   ((error_context (scriptedWorld 100 20 (.ok 4) (.ok 6)) scriptedEnv 10 8 50 11 12).2
      1 9 8 20 (by decide) (by decide)).1⟩

/-! ## Withdrawal arguments -/

/-- C8 (withdrawal arguments): every call to the withdrawal submission SendERC20 passes
the request's token address as the token, the zero address as the placeholder address,
the request's L1 recipient as the recipient, the requested amount as the amount and an
empty byte string as the bridge-specific data; it is signed by the chain's transactor
and sent to the adapter bound at the request's bridge adapter address. -/
theorem withdrawal_arguments (w : World) (env : Env) (l2ChainID : Nat)
    (l2BridgeAdapterAddress : Address) (amount : Int)
    (l1ToAddress l2TokenAddress : Address)
    (adapter : OptimismL2BridgeAdapter) (opts : TransactOpts)
    (localToken remoteToken recipient : Address) (am : Int) (data : List Nat)
    (res : Except GoError Transaction)
    (hsend : Event.SendERC20 adapter opts localToken remoteToken recipient am data res ∈
      (WithdrawFromL2 w env l2ChainID l2BridgeAdapterAddress amount l1ToAddress
        l2TokenAddress).2) :
    localToken = l2TokenAddress ∧ remoteToken = 0 ∧ recipient = l1ToAddress ∧
    am = amount ∧ data = [] ∧ env.Transactors l2ChainID = some opts ∧
    Event.NewOptimismL2BridgeAdapter l2BridgeAdapterAddress (env.Clients l2ChainID)
        (.ok adapter) ∈
      (WithdrawFromL2 w env l2ChainID l2BridgeAdapterAddress amount l1ToAddress
        l2TokenAddress).2 := by
  have h := WithdrawFromL2_shape w env l2ChainID l2BridgeAdapterAddress amount l1ToAddress
    l2TokenAddress
  generalize WithdrawFromL2 w env l2ChainID l2BridgeAdapterAddress amount l1ToAddress
    l2TokenAddress = run at h hsend
  cases h <;> simp_all

/-- Witness of C8: token 12, recipient 11, amount 50 on chain 10. -/
theorem withdrawal_arguments_witness :
    Event.SendERC20 2 ⟨9, 1⟩ 12 0 11 50 [] (.ok 5) ∈
      (WithdrawFromL2 (scriptedWorld 100 50 (.ok 4) (.ok 6)) scriptedEnv 10 8 50 11 12).2 ∧
    ((12 : Address) = 12 ∧ (0 : Address) = 0 ∧ (11 : Address) = 11 ∧ (50 : Int) = 50 ∧
      ([] : List Nat) = [] ∧ scriptedEnv.Transactors 10 = some ⟨9, 1⟩ ∧
      Event.NewOptimismL2BridgeAdapter 8 (scriptedEnv.Clients 10) (.ok 2) ∈
        (WithdrawFromL2 (scriptedWorld 100 50 (.ok 4) (.ok 6)) scriptedEnv
          10 8 50 11 12).2) :=
  ⟨by decide,
   withdrawal_arguments (scriptedWorld 100 50 (.ok 4) (.ok 6)) scriptedEnv 10 8 50 11 12
     2 ⟨9, 1⟩ 12 0 11 50 [] (.ok 5) (by decide)⟩

/-! ## No automatic retry -/

/-- C9 (no automatic retry): in every run, whatever the world answers, the balance
query, the approve submission, the allowance query and the withdrawal submission are each
called at most once, so at most two transactions are submitted; and the transactions
handed to the confirmer are exactly the transactions the submissions returned, each once
and in the same order. -/
theorem no_retry (w : World) (env : Env) (l2ChainID : Nat)
    (l2BridgeAdapterAddress : Address) (amount : Int)
    (l1ToAddress l2TokenAddress : Address) :
    ((WithdrawFromL2 w env l2ChainID l2BridgeAdapterAddress amount l1ToAddress
        l2TokenAddress).2.filter Event.isBalanceOf).length ≤ 1 ∧
    ((WithdrawFromL2 w env l2ChainID l2BridgeAdapterAddress amount l1ToAddress
        l2TokenAddress).2.filter Event.isApprove).length ≤ 1 ∧
    ((WithdrawFromL2 w env l2ChainID l2BridgeAdapterAddress amount l1ToAddress
        l2TokenAddress).2.filter Event.isAllowance).length ≤ 1 ∧
    ((WithdrawFromL2 w env l2ChainID l2BridgeAdapterAddress amount l1ToAddress
        l2TokenAddress).2.filter Event.isSendERC20).length ≤ 1 ∧
    (submitted (WithdrawFromL2 w env l2ChainID l2BridgeAdapterAddress amount l1ToAddress
        l2TokenAddress).2).length ≤ 2 ∧
    confirmedTxs (WithdrawFromL2 w env l2ChainID l2BridgeAdapterAddress amount l1ToAddress
        l2TokenAddress).2 =
      submittedTxs (WithdrawFromL2 w env l2ChainID l2BridgeAdapterAddress amount l1ToAddress
        l2TokenAddress).2 := by
  have h := WithdrawFromL2_shape w env l2ChainID l2BridgeAdapterAddress amount l1ToAddress
    l2TokenAddress
  generalize WithdrawFromL2 w env l2ChainID l2BridgeAdapterAddress amount l1ToAddress
    l2TokenAddress = run at h
  cases h <;>
    simp [submitted, submittedTxs, confirmedTxs, Event.isBalanceOf, Event.isApprove,
      Event.isAllowance, Event.isSendERC20]

/-! ## Spender and owner -/

/-- C10 (spender/owner consistency): in every run, the spender of the approve submission
and the spender of the allowance re-query are the request's bridge adapter address; the
account of the balance query and the owner of the allowance re-query are the From address
of the chain's transactor, and that same transactor signs both submissions. -/
theorem spender_owner_consistency (w : World) (env : Env) (l2ChainID : Nat)
    (l2BridgeAdapterAddress : Address) (amount : Int)
    (l1ToAddress l2TokenAddress : Address) :
    (∀ token opts spender am res,
      Event.Approve token opts spender am res ∈
        (WithdrawFromL2 w env l2ChainID l2BridgeAdapterAddress amount l1ToAddress
          l2TokenAddress).2 →
      spender = l2BridgeAdapterAddress ∧ env.Transactors l2ChainID = some opts) ∧
    (∀ token owner spender res,
      Event.Allowance token owner spender res ∈
        (WithdrawFromL2 w env l2ChainID l2BridgeAdapterAddress amount l1ToAddress
          l2TokenAddress).2 →
      spender = l2BridgeAdapterAddress ∧
        ∃ opts, env.Transactors l2ChainID = some opts ∧ owner = opts.From) ∧
    (∀ token account res,
      Event.BalanceOf token account res ∈
        (WithdrawFromL2 w env l2ChainID l2BridgeAdapterAddress amount l1ToAddress
          l2TokenAddress).2 →
      ∃ opts, env.Transactors l2ChainID = some opts ∧ account = opts.From) ∧
    (∀ adapter opts localToken remoteToken recipient am data res,
      Event.SendERC20 adapter opts localToken remoteToken recipient am data res ∈
        (WithdrawFromL2 w env l2ChainID l2BridgeAdapterAddress amount l1ToAddress
          l2TokenAddress).2 →
      env.Transactors l2ChainID = some opts) := by
  have h := WithdrawFromL2_shape w env l2ChainID l2BridgeAdapterAddress amount l1ToAddress
    l2TokenAddress
  generalize WithdrawFromL2 w env l2ChainID l2BridgeAdapterAddress amount l1ToAddress
    l2TokenAddress = run at h
  cases h <;> simp_all

/-- Witness of C10: on chain 10 the transactor is account 9 and the adapter sits at
address 8; the allowance re-query of the run asks for owner 9 and spender 8. -/
theorem spender_owner_consistency_witness :
    Event.Allowance 1 9 8 (.ok 50) ∈
      (WithdrawFromL2 (scriptedWorld 100 50 (.ok 4) (.ok 6)) scriptedEnv 10 8 50 11 12).2 ∧
    ((8 : Address) = 8 ∧
      ∃ opts, scriptedEnv.Transactors 10 = some opts ∧ (9 : Address) = opts.From) :=
  ⟨by decide,
   (spender_owner_consistency (scriptedWorld 100 50 (.ok 4) (.ok 6)) scriptedEnv
     10 8 50 11 12).2.1 1 9 8 (.ok 50) (by decide)⟩

end Opstack
